import Mathlib

/-!
Shallow embedding of the time-phase calculators of `src/components/Navbar.tsx`
(the `useSeason` and `usePortPhase` functions and their helpers).

Modelling conventions:
* JavaScript numbers appearing in this code always hold exact small integers
  or exact multiples of 1/60 and 1/300, so they are embedded as rationals (ℚ);
  integer-valued quantities are embedded as ℤ or ℕ.
* The JavaScript remainder operator `%` (truncated remainder, result signed
  like the dividend) is embedded as `jsMod` below.
* `Math.floor` is `Int.floor`, `Math.round` (half toward +infinity) is
  Mathlib's `round` (`⌊x + 1/2⌋`), `Math.max`/`Math.min` on rationals are the
  explicit comparisons `jsMax`/`jsMin` (and `max` on ℤ where both arguments
  are integers).
* `getPDTParts` converts the sampled clock to civil fields in the fixed
  timezone; its output record is the structure `CivilParts`, which is the
  input to both calculators.
* The string labels "Summer"/"Winter", "Night"/"Day" and "moon"/"sun" are
  embedded as two-constructor enumerations.
-/

/-- Civil calendar fields in the fixed timezone (America/Los_Angeles), as
produced by `getPDTParts` in `Navbar.tsx` (hour is 0..23, minute and second
0..59 for real clock readings; the definitions below are total). -/
structure CivilParts where
  year : ℤ
  month : ℤ
  day : ℤ
  hour : ℕ
  minute : ℕ
  second : ℕ

/-- JavaScript `Math.max` on two (exact) numbers. -/
def jsMax (a b : ℚ) : ℚ := if a ≤ b then b else a

/-- JavaScript `Math.min` on two (exact) numbers. -/
def jsMin (a b : ℚ) : ℚ := if a ≤ b then a else b

/-- Truncation toward zero of a rational, as JavaScript division-with-`%`
semantics requires. -/
def truncQ (q : ℚ) : ℤ := if 0 ≤ q then ⌊q⌋ else ⌈q⌉

/-- The JavaScript `%` operator on (exact) numbers: `a % b = a - b * trunc (a / b)`,
the remainder carrying the sign of the dividend `a`. -/
def jsMod (a b : ℚ) : ℚ := a - b * truncQ (a / b)

/-- Epoch-day number of a civil (proleptic Gregorian) date: this is
`Date.UTC(y, m-1, d) / 86400000` for valid civil dates, which is how
`useSeason` turns the PDT calendar date into a day count. -/
def daysFromCivil (y m d : ℤ) : ℤ :=
  let y2 := if m ≤ 2 then y - 1 else y
  let era := Int.fdiv y2 400
  let yoe := y2 - era * 400
  let mp := if m ≤ 2 then m + 9 else m - 3
  let doy := Int.fdiv (153 * mp + 2) 5 + d - 1
  let doe := yoe * 365 + Int.fdiv yoe 4 - Int.fdiv yoe 100 + doy
  era * 146097 + doe - 719468

/-- `SUMMER_HOURS * 60` from `useSeason` (SUMMER_HOURS = 11). -/
def SUMMER_MIN : ℚ := 11 * 60

/-- `WINTER_HOURS * 60` from `useSeason` (WINTER_HOURS = 9). -/
def WINTER_MIN : ℚ := 9 * 60

/-- `PATTERN_MIN = SUMMER_MIN + WINTER_MIN` from `useSeason`. -/
def PATTERN_MIN : ℚ := SUMMER_MIN + WINTER_MIN

/-- `ANCHOR_MIN_OF_DAY = 3*60 + 30` (03:30, start of Summer) from `useSeason`. -/
def ANCHOR_MIN_OF_DAY : ℚ := 3 * 60 + 30

/-- `daysSinceAnchor` from `useSeason`: whole-day difference between the
current PDT calendar date and the anchor date Oct 4, 2025 (`Math.floor` of
the millisecond difference of UTC midnights divided by 86400000, which for
valid civil dates is exactly the epoch-day difference). -/
def daysSinceAnchor (p : CivilParts) : ℤ :=
  daysFromCivil p.year p.month p.day - daysFromCivil 2025 10 4

/-- `minutesToday = p.hour * 60 + p.minute + p.second / 60` from `useSeason`. -/
def minutesToday (p : CivilParts) : ℚ :=
  (p.hour : ℚ) * 60 + (p.minute : ℚ) + (p.second : ℚ) / 60

/-- The raw (pre-normalization) `totalMin = daysSinceAnchor * 1440 +
minutesToday - ANCHOR_MIN_OF_DAY` from `useSeason`. -/
def totalMinRaw (p : CivilParts) : ℚ :=
  (daysSinceAnchor p : ℚ) * 1440 + minutesToday p - ANCHOR_MIN_OF_DAY

/-- The normalization step `totalMin = ((totalMin % PATTERN_MIN) + PATTERN_MIN)
% PATTERN_MIN` from `useSeason`. -/
def normalizeMin (x : ℚ) : ℚ := jsMod (jsMod x PATTERN_MIN + PATTERN_MIN) PATTERN_MIN

/-- The normalized `totalMin` value of `useSeason`. -/
def totalMin (p : CivilParts) : ℚ := normalizeMin (totalMinRaw p)

/-- `inSummer = totalMin < SUMMER_MIN` from `useSeason`. -/
def inSummer (p : CivilParts) : Prop := totalMin p < SUMMER_MIN

instance (p : CivilParts) : Decidable (inSummer p) :=
  inferInstanceAs (Decidable (totalMin p < SUMMER_MIN))

/-- The two season labels `"Summer"` / `"Winter"`. -/
inductive Season where
  | Summer
  | Winter
deriving DecidableEq

/-- `periodMin = inSummer ? SUMMER_MIN : WINTER_MIN` from `useSeason`. -/
def periodMin (p : CivilParts) : ℚ :=
  if inSummer p then SUMMER_MIN else WINTER_MIN

/-- `sinceLast = inSummer ? totalMin : totalMin - SUMMER_MIN` from `useSeason`. -/
def sinceLast (p : CivilParts) : ℚ :=
  if inSummer p then totalMin p else totalMin p - SUMMER_MIN

/-- `toNextChangeMin = periodMin - sinceLast` from `useSeason`. -/
def toNextChangeMin (p : CivilParts) : ℚ := periodMin p - sinceLast p

/-- `nextTotalMin = (minutesToday + toNextChangeMin) % (24 * 60)` from `useSeason`. -/
def nextTotalMin (p : CivilParts) : ℚ :=
  jsMod (minutesToday p + toNextChangeMin p) (24 * 60)

/-- The result record of `useSeason`.  `nextChangeLabel` is represented by its
numeric hour/minute pair (`nextH`, `nextM`); `timeToNextChange` is represented
by the clamped whole-second count `Math.max(0, Math.round(toNextChangeMin*60))`
that the source passes to the `fmtMMSS` string formatter. -/
structure SeasonResult where
  season : Season
  nextH : ℤ
  nextM : ℤ
  timeToNextChangeSecs : ℤ
  progress : ℚ

/-- The `useSeason` hook of `Navbar.tsx` (its pure computational content). -/
def useSeason (p : CivilParts) : SeasonResult :=
  { season := if inSummer p then Season.Summer else Season.Winter
    nextH := ⌊nextTotalMin p / 60⌋
    nextM := ⌊jsMod (nextTotalMin p) 60⌋
    timeToNextChangeSecs := max 0 (round (toNextChangeMin p * 60))
    progress := jsMax 0 (jsMin 1 (sinceLast p / periodMin p)) }

/-- The two port-phase labels `"Night"` / `"Day"`. -/
inductive Phase where
  | Night
  | Day
deriving DecidableEq

/-- The two icon tags `"moon"` / `"sun"`. -/
inductive Icon where
  | moon
  | sun
deriving DecidableEq

/-- The result record of `usePortPhase`.  `timeToFlip` is represented by the
whole-second count `secsToFlip` that the source passes to `fmtMMSS`. -/
structure PortResult where
  phase : Phase
  icon : Icon
  secsToFlip : ℤ
  progress : ℚ

/-- The `usePortPhase` hook of `Navbar.tsx` (its pure computational content),
a function of the PDT minute and second only. -/
def usePortPhase (minute second : ℕ) : PortResult :=
  let w := minute % 15
  let secInCycle : ℤ := w * 60 + second
  let isNight := w = 13 ∨ w = 14 ∨ w ≤ 2
  let secsToFlip : ℤ :=
    if isNight then
      (if 780 ≤ secInCycle then 900 - secInCycle else 180 - secInCycle)
    else 780 - secInCycle
  let progress : ℚ :=
    if isNight then
      (if 780 ≤ secInCycle then ((secInCycle : ℚ) - 780) / 300
       else ((secInCycle : ℚ) + 120) / 300)
    else ((secInCycle : ℚ) - 180) / 600
  { phase := if isNight then Phase.Night else Phase.Day
    icon := if isNight then Icon.moon else Icon.sun
    secsToFlip := secsToFlip
    progress := jsMax 0 (jsMin 1 progress) }

/-- The floored modulo described by the spec ("Normalize into `[0, patternLength)`
using a floored modulo"): `a - b * ⌊a / b⌋`. -/
def fmod (a b : ℚ) : ℚ := a - b * ⌊a / b⌋

/-- Spec-side next-change clock conversion ("Next-change clock label =
`(minutesToday + remainingMinutes) mod 1440`, converted to hour:minute"):
wrap the minute-of-day value with a floored modulo into `[0, 1440)`, the hour
is its quotient by 60 and the minute the (floored) remainder by 60. -/
def specNextHM (n : ℚ) : ℤ × ℤ :=
  (⌊fmod n 1440 / 60⌋, ⌊fmod (fmod n 1440) 60⌋)

theorem truncQ_of_nonneg {q : ℚ} (h : 0 ≤ q) : truncQ q = ⌊q⌋ := if_pos h

theorem truncQ_of_neg {q : ℚ} (h : q < 0) : truncQ q = ⌈q⌉ := if_neg (not_le.mpr h)

theorem fmod_eq_mul_fract {a b : ℚ} (hb : 0 < b) : fmod a b = b * Int.fract (a / b) := by
  unfold fmod Int.fract
  field_simp

theorem fmod_nonneg {a b : ℚ} (hb : 0 < b) : 0 ≤ fmod a b := by
  rw [fmod_eq_mul_fract hb]
  exact mul_nonneg hb.le (Int.fract_nonneg _)

theorem fmod_lt {a b : ℚ} (hb : 0 < b) : fmod a b < b := by
  rw [fmod_eq_mul_fract hb]
  calc b * Int.fract (a / b) < b * 1 := mul_lt_mul_of_pos_left (Int.fract_lt_one _) hb
    _ = b := mul_one b

theorem jsMod_eq_fmod {a b : ℚ} (hb : 0 < b) (ha : 0 ≤ a) : jsMod a b = fmod a b := by
  rw [jsMod, fmod, truncQ_of_nonneg (div_nonneg ha hb.le)]

theorem jsMod_nonneg {a b : ℚ} (hb : 0 < b) (ha : 0 ≤ a) : 0 ≤ jsMod a b := by
  rw [jsMod_eq_fmod hb ha]
  exact fmod_nonneg hb

theorem jsMod_lt {a b : ℚ} (hb : 0 < b) (ha : 0 ≤ a) : jsMod a b < b := by
  rw [jsMod_eq_fmod hb ha]
  exact fmod_lt hb

theorem neg_lt_jsMod (a : ℚ) {b : ℚ} (hb : 0 < b) : -b < jsMod a b := by
  rcases le_or_lt 0 a with ha | ha
  · have h := jsMod_nonneg hb ha
    linarith
  · rw [jsMod, truncQ_of_neg (div_neg_of_neg_of_pos ha hb)]
    have h1 : ((⌈a / b⌉ : ℚ)) < a / b + 1 := Int.ceil_lt_add_one _
    have h2 : b * ((⌈a / b⌉ : ℚ)) < b * (a / b + 1) := mul_lt_mul_of_pos_left h1 hb
    have h3 : b * (a / b + 1) = a + b := by field_simp
    linarith

theorem PATTERN_MIN_pos : (0 : ℚ) < PATTERN_MIN := by
  norm_num [PATTERN_MIN, SUMMER_MIN, WINTER_MIN]

theorem normalizeMin_nonneg (x : ℚ) : 0 ≤ normalizeMin x := by
  have h := neg_lt_jsMod x PATTERN_MIN_pos
  exact jsMod_nonneg PATTERN_MIN_pos (by linarith)

theorem normalizeMin_lt (x : ℚ) : normalizeMin x < PATTERN_MIN := by
  have h := neg_lt_jsMod x PATTERN_MIN_pos
  exact jsMod_lt PATTERN_MIN_pos (by linarith)

theorem totalMin_nonneg (p : CivilParts) : 0 ≤ totalMin p := normalizeMin_nonneg _

theorem totalMin_lt (p : CivilParts) : totalMin p < PATTERN_MIN := normalizeMin_lt _

theorem toNextChangeMin_pos (p : CivilParts) : 0 < toNextChangeMin p := by
  have h1 := totalMin_nonneg p
  have h2 := totalMin_lt p
  rw [PATTERN_MIN] at h2
  rw [toNextChangeMin, periodMin, sinceLast]
  by_cases h : inSummer p
  · rw [if_pos h, if_pos h]
    rw [inSummer] at h
    linarith
  · rw [if_neg h, if_neg h]
    rw [inSummer, not_lt] at h
    linarith

theorem minutesToday_nonneg (p : CivilParts) : 0 ≤ minutesToday p := by
  rw [minutesToday]
  positivity

theorem clamp01 (x : ℚ) : 0 ≤ jsMax 0 (jsMin 1 x) ∧ jsMax 0 (jsMin 1 x) ≤ 1 := by
  rw [jsMax, jsMin]
  split_ifs <;> constructor <;> linarith

/-- C1: for every input instant (any civil field values, in particular every
civil hour/minute/second), the progress value returned by the season
calculator and the progress value returned by the port-phase calculator both
lie in the closed interval `[0, 1]`. -/
theorem season_and_port_progress_mem_unit_interval (p : CivilParts) (m s : ℕ) :
    (0 ≤ (useSeason p).progress ∧ (useSeason p).progress ≤ 1) ∧
    (0 ≤ (usePortPhase m s).progress ∧ (usePortPhase m s).progress ≤ 1) := by
  constructor
  · simpa only [useSeason] using clamp01 (sinceLast p / periodMin p)
  · simpa only [usePortPhase] using clamp01 _

/-- C2: with durations 660 min (Summer) and 540 min (Winter) and the anchor
at 2025-10-04 03:30 PDT, the instant 2025-10-04 09:00:00 PDT lies exactly 330
minutes after the anchor, and the season calculator there reports Summer with
progress exactly 1/2. -/
theorem season_halfway_through_summer_at_330_min :
    totalMinRaw ⟨2025, 10, 4, 9, 0, 0⟩ = 330 ∧
    (useSeason ⟨2025, 10, 4, 9, 0, 0⟩).season = Season.Summer ∧
    (useSeason ⟨2025, 10, 4, 9, 0, 0⟩).progress = 1 / 2 := by
  norm_num [useSeason, inSummer, periodMin, sinceLast, totalMin, normalizeMin,
    totalMinRaw, daysSinceAnchor, minutesToday, jsMod, truncQ, jsMax, jsMin,
    PATTERN_MIN, SUMMER_MIN, WINTER_MIN, ANCHOR_MIN_OF_DAY]

/-- C3: the port-phase calculator classifies an instant as Night exactly when
`w = minute mod 15` is 13, 14, 0, 1 or 2, and as Day exactly when
`w ∈ [3, 12]`. -/
theorem port_night_day_window_characterization (m s : ℕ) :
    ((usePortPhase m s).phase = Phase.Night ↔
      (m % 15 = 13 ∨ m % 15 = 14 ∨ m % 15 ≤ 2)) ∧
    ((usePortPhase m s).phase = Phase.Day ↔ (3 ≤ m % 15 ∧ m % 15 ≤ 12)) := by
  have hw : m % 15 < 15 := Nat.mod_lt _ (by norm_num)
  simp only [usePortPhase]
  by_cases h : m % 15 = 13 ∨ m % 15 = 14 ∨ m % 15 ≤ 2
  · rw [if_pos h]
    refine ⟨⟨fun _ => h, fun _ => rfl⟩, ⟨fun hc => Phase.noConfusion hc, ?_⟩⟩
    intro hc
    exact absurd h (by omega)
  · rw [if_neg h]
    refine ⟨⟨fun hc => Phase.noConfusion hc, fun hc => absurd hc h⟩,
      ⟨fun _ => by omega, fun _ => rfl⟩⟩

/-- C4: the port-phase calculator is 15-minute periodic: for minutes
`m ≤ 44` and seconds `s ≤ 59`, evaluating at minute `m + 15` (same hour,
same second) yields the same label and the same progress as at minute `m`. -/
theorem port_phase_periodic_mod_15 (m s : ℕ) (hm : m ≤ 44) (hs : s ≤ 59) :
    (usePortPhase (m + 15) s).phase = (usePortPhase m s).phase ∧
    (usePortPhase (m + 15) s).progress = (usePortPhase m s).progress := by
  have h : (m + 15) % 15 = m % 15 := Nat.add_mod_right m 15
  constructor <;> simp only [usePortPhase, h]

/-- Witness for C4 at minute 7, second 30. -/
theorem port_phase_periodic_mod_15_witness :
    (7 : ℕ) ≤ 44 ∧ (30 : ℕ) ≤ 59 ∧
    ((usePortPhase (7 + 15) 30).phase = (usePortPhase 7 30).phase ∧
     (usePortPhase (7 + 15) 30).progress = (usePortPhase 7 30).progress) :=
  ⟨by decide, by decide, port_phase_periodic_mod_15 7 30 (by decide) (by decide)⟩

/-- C5: at `w = 14, s = 59` and at `w = 0, s = 0` the port-phase calculator
classifies both instants as Night, with progress 119/300 at the former and
120/300 = 2/5 at the latter, so the jump across the cycle wrap is exactly the
1/300 of one one-second sampling step. -/
theorem port_night_wrap_progress_continuity :
    (usePortPhase 14 59).phase = Phase.Night ∧
    (usePortPhase 0 0).phase = Phase.Night ∧
    (usePortPhase 14 59).progress = 119 / 300 ∧
    (usePortPhase 0 0).progress = 120 / 300 ∧
    (usePortPhase 0 0).progress - (usePortPhase 14 59).progress = 1 / 300 := by
  norm_num [usePortPhase, jsMax, jsMin]

/-- C6: for every raw minutes-since-anchor value `x` (negative values, i.e.
instants before the anchor, included), the normalized value
`((x % P) + P) % P` with `P = PATTERN_MIN = SUMMER_MIN + WINTER_MIN` lies in
`[0, P)`, and this normalized value is the quantity the season calculator
compares against `SUMMER_MIN` to select the current state. -/
theorem season_normalized_minutes_in_range (x : ℚ) (p : CivilParts) :
    (0 ≤ normalizeMin x ∧ normalizeMin x < PATTERN_MIN) ∧
    totalMin p = normalizeMin (totalMinRaw p) ∧
    (useSeason p).season =
      (if totalMin p < SUMMER_MIN then Season.Summer else Season.Winter) := by
  refine ⟨⟨normalizeMin_nonneg x, normalizeMin_lt x⟩, rfl, ?_⟩
  simp only [useSeason, inSummer]

/-- C7: the season calculator's next-change clock label is exactly the
spec-side conversion `specNextHM`: reduce `minutesToday + remainingMinutes`
modulo 1440 (floored) and read off the hour and minute of that wrapped
minute-of-day value; no calendar date is part of the result. -/
theorem season_next_change_label_refines_spec (p : CivilParts) :
    ((useSeason p).nextH, (useSeason p).nextM) =
      specNextHM (minutesToday p + toNextChangeMin p) := by
  have hn : 0 ≤ minutesToday p + toNextChangeMin p :=
    add_nonneg (minutesToday_nonneg p) (toNextChangeMin_pos p).le
  have h1440 : (0 : ℚ) < 1440 := by norm_num
  have h60 : (0 : ℚ) < 60 := by norm_num
  have h2460 : ((24 : ℚ) * 60) = 1440 := by norm_num
  have e1 : nextTotalMin p = fmod (minutesToday p + toNextChangeMin p) 1440 := by
    rw [nextTotalMin, h2460, jsMod_eq_fmod h1440 hn]
  have e2 : 0 ≤ nextTotalMin p := by
    rw [e1]
    exact fmod_nonneg h1440
  simp only [useSeason, specNextHM, ← e1, jsMod_eq_fmod h60 e2]

/-- C8: at the exact anchor instant 2025-10-04 03:30:00 PDT the season
calculator reports the configured starting state Summer with progress
exactly 0. -/
theorem season_at_anchor_summer_progress_zero :
    totalMinRaw ⟨2025, 10, 4, 3, 30, 0⟩ = 0 ∧
    (useSeason ⟨2025, 10, 4, 3, 30, 0⟩).season = Season.Summer ∧
    (useSeason ⟨2025, 10, 4, 3, 30, 0⟩).progress = 0 := by
  norm_num [useSeason, inSummer, periodMin, sinceLast, totalMin, normalizeMin,
    totalMinRaw, daysSinceAnchor, minutesToday, jsMod, truncQ, jsMax, jsMin,
    PATTERN_MIN, SUMMER_MIN, WINTER_MIN, ANCHOR_MIN_OF_DAY]

/-- C9: the remaining-time countdown of the season calculator is never
negative: the whole-second value handed to the countdown formatter is clamped
to be at least 0 (and the raw pre-clamp remaining time is in fact always
strictly positive). -/
theorem season_countdown_nonneg (p : CivilParts) :
    0 ≤ (useSeason p).timeToNextChangeSecs ∧ 0 < toNextChangeMin p := by
  constructor
  · simp only [useSeason]
    exact le_max_left 0 _
  · exact toNextChangeMin_pos p

/-- C10: for every minute in `[0, 59]` and second in `[0, 59]`, the
port-phase calculator's seconds-to-flip value is strictly positive and
bounded by the current window length: at most 180 in Night (at most 120 in
the late part of the night window, where `secInCycle ≥ 780`), and at most 600
in Day; no defensive clamp is needed to keep it non-negative. -/
theorem port_secs_to_flip_pos_and_bounded (m s : ℕ) (hm : m ≤ 59) (hs : s ≤ 59) :
    0 < (usePortPhase m s).secsToFlip ∧
    ((usePortPhase m s).phase = Phase.Night →
      (usePortPhase m s).secsToFlip ≤ 180 ∧
      (780 ≤ (m % 15) * 60 + s → (usePortPhase m s).secsToFlip ≤ 120)) ∧
    ((usePortPhase m s).phase = Phase.Day →
      (usePortPhase m s).secsToFlip ≤ 600) := by
  have hw : m % 15 < 15 := Nat.mod_lt _ (by norm_num)
  simp only [usePortPhase]
  split_ifs with h h2
  · exact ⟨by omega, fun _ => ⟨by omega, fun h3 => by omega⟩, fun hc => hc.elim⟩
  · exact ⟨by omega, fun _ => ⟨by omega, fun h3 => by omega⟩, fun hc => hc.elim⟩
  · exact ⟨by omega, fun hc => hc.elim, fun _ => by omega⟩

/-- Witness for C10 at minute 7, second 30 (a Day instant). -/
theorem port_secs_to_flip_pos_and_bounded_witness :
    (7 : ℕ) ≤ 59 ∧ (30 : ℕ) ≤ 59 ∧
    (0 < (usePortPhase 7 30).secsToFlip ∧
     ((usePortPhase 7 30).phase = Phase.Night →
       (usePortPhase 7 30).secsToFlip ≤ 180 ∧
       (780 ≤ (7 % 15) * 60 + 30 → (usePortPhase 7 30).secsToFlip ≤ 120)) ∧
     ((usePortPhase 7 30).phase = Phase.Day →
       (usePortPhase 7 30).secsToFlip ≤ 600)) :=
  ⟨by decide, by decide,
    port_secs_to_flip_pos_and_bounded 7 30 (by decide) (by decide)⟩
